import Mathlib

/-!
Verification of lightgl.js core algorithms: the 4x4 homogeneous matrix algebra
(`matrix.js`), the transform stack (`main.js`), and the analytic raytracer
(`raytracer.js`: `HitTest`, `Raytracer.hitTestBox`, `hitTestSphere`,
`hitTestTriangle`, with the vector algebra of `vector.js`).

JavaScript numbers are modelled by `LightGL.JSNum`: an exact real number,
`NaN`, `+Infinity` or `-Infinity`, with the IEEE-754 special-value rules for
arithmetic, comparison (every comparison involving `NaN` is false), `Math.sqrt`,
`Math.min`/`Math.max`, and the sentinel `Number.MAX_VALUE`.  Finite arithmetic
is idealised as exact (no rounding, no overflow, no negative zero); the matrix
algebra, which the spec quantifies over exactly ("determinant exactly 0",
"exact arithmetic"), is embedded over an arbitrary field of scalars.
-/

namespace LightGL

open Classical

/-- A JavaScript number: `NaN`, `+Infinity`, `-Infinity`, or a finite value
(idealised as an exact real). -/
inductive JSNum : Type where
  | nan : JSNum
  | posInf : JSNum
  | negInf : JSNum
  | fin : ℝ → JSNum

namespace JSNum

/-- The JS constant `Number.MAX_VALUE`, the largest finite double
`(2 - 2^-52) * 2^1023 = 2^1024 - 2^971`. -/
noncomputable def maxValue : ℝ := 2 ^ (1024 : ℕ) - 2 ^ (971 : ℕ)

/-- IEEE unary negation. -/
def neg : JSNum → JSNum
  | nan => nan
  | posInf => negInf
  | negInf => posInf
  | fin q => fin (-q)

/-- IEEE addition (`NaN` propagates, opposite infinities give `NaN`). -/
def add : JSNum → JSNum → JSNum
  | fin a, fin b => fin (a + b)
  | fin _, posInf => posInf
  | fin _, negInf => negInf
  | posInf, fin _ => posInf
  | negInf, fin _ => negInf
  | posInf, posInf => posInf
  | negInf, negInf => negInf
  | posInf, negInf => nan
  | negInf, posInf => nan
  | nan, _ => nan
  | _, nan => nan

/-- IEEE subtraction, `a - b = a + (-b)`. -/
def sub (a b : JSNum) : JSNum := a.add b.neg

/-- IEEE multiplication (`0 * Infinity = NaN`, `NaN` propagates). -/
noncomputable def mul : JSNum → JSNum → JSNum
  | fin a, fin b => fin (a * b)
  | fin a, posInf => if a = 0 then nan else if 0 < a then posInf else negInf
  | fin a, negInf => if a = 0 then nan else if 0 < a then negInf else posInf
  | posInf, fin b => if b = 0 then nan else if 0 < b then posInf else negInf
  | negInf, fin b => if b = 0 then nan else if 0 < b then negInf else posInf
  | posInf, posInf => posInf
  | posInf, negInf => negInf
  | negInf, posInf => negInf
  | negInf, negInf => posInf
  | nan, _ => nan
  | _, nan => nan

/-- IEEE division: a nonzero finite value divided by zero gives a signed
infinity, `0 / 0` and `Infinity / Infinity` give `NaN`, a finite value divided
by an infinity gives `0` (negative zero is not modelled). -/
noncomputable def div : JSNum → JSNum → JSNum
  | fin a, fin b =>
      if b = 0 then (if a = 0 then nan else if 0 < a then posInf else negInf)
      else fin (a / b)
  | fin _, posInf => fin 0
  | fin _, negInf => fin 0
  | posInf, fin b => if b < 0 then negInf else posInf
  | negInf, fin b => if b < 0 then posInf else negInf
  | posInf, posInf => nan
  | posInf, negInf => nan
  | negInf, posInf => nan
  | negInf, negInf => nan
  | nan, _ => nan
  | _, nan => nan

/-- The `Math.sqrt` function: `NaN` on negative arguments and `NaN`. -/
noncomputable def sqrt : JSNum → JSNum
  | fin q => if q < 0 then nan else fin (Real.sqrt q)
  | posInf => posInf
  | negInf => nan
  | nan => nan

/-- The JS strict-less comparison `a < b`: false whenever either side is
`NaN`. -/
def Lt : JSNum → JSNum → Prop
  | fin a, fin b => a < b
  | fin _, posInf => True
  | negInf, fin _ => True
  | negInf, posInf => True
  | _, _ => False

/-- The JS comparison `a <= b`: false whenever either side is `NaN`. -/
def Le : JSNum → JSNum → Prop
  | fin a, fin b => a ≤ b
  | fin _, posInf => True
  | negInf, fin _ => True
  | negInf, posInf => True
  | posInf, posInf => True
  | negInf, negInf => True
  | _, _ => False

/-- The `Math.min` function: `NaN` if either argument is `NaN`. -/
def jsMin : JSNum → JSNum → JSNum
  | nan, _ => nan
  | _, nan => nan
  | negInf, _ => negInf
  | fin _, negInf => negInf
  | posInf, negInf => negInf
  | posInf, b => b
  | fin a, posInf => fin a
  | fin a, fin b => fin (min a b)

/-- The `Math.max` function: `NaN` if either argument is `NaN`. -/
def jsMax : JSNum → JSNum → JSNum
  | nan, _ => nan
  | _, nan => nan
  | posInf, _ => posInf
  | fin _, posInf => posInf
  | negInf, posInf => posInf
  | negInf, b => b
  | fin a, negInf => fin a
  | fin a, fin b => fin (max a b)

/-- The number is finite (not `NaN` and not an infinity). -/
def IsFinite : JSNum → Prop
  | fin _ => True
  | _ => False

end JSNum

/-- The 3-component vector of `vector.js` (raytracer flavour: components are
JS numbers). -/
structure Vector where
  x : JSNum
  y : JSNum
  z : JSNum

namespace Vector

/-- Shorthand for a vector with finite components. -/
def finV (a b c : ℝ) : Vector := ⟨.fin a, .fin b, .fin c⟩

/-- The `Vector.prototype.add` overload taking another vector
(component-wise). -/
def add (u v : Vector) : Vector := ⟨u.x.add v.x, u.y.add v.y, u.z.add v.z⟩

/-- The `Vector.prototype.add` overload taking a scalar (broadcast). -/
def addS (u : Vector) (n : JSNum) : Vector := ⟨u.x.add n, u.y.add n, u.z.add n⟩

/-- The `Vector.prototype.subtract` overload taking another vector. -/
def subtract (u v : Vector) : Vector := ⟨u.x.sub v.x, u.y.sub v.y, u.z.sub v.z⟩

/-- The `Vector.prototype.subtract` overload taking a scalar. -/
noncomputable def subS (u : Vector) (n : JSNum) : Vector :=
  ⟨u.x.sub n, u.y.sub n, u.z.sub n⟩

/-- The `Vector.prototype.multiply` overload taking a scalar. -/
noncomputable def smul (u : Vector) (n : JSNum) : Vector :=
  ⟨u.x.mul n, u.y.mul n, u.z.mul n⟩

/-- The `Vector.prototype.divide` overload taking another vector
(component-wise). -/
noncomputable def divV (u v : Vector) : Vector :=
  ⟨u.x.div v.x, u.y.div v.y, u.z.div v.z⟩

/-- The `Vector.prototype.divide` overload taking a scalar. -/
noncomputable def divS (u : Vector) (n : JSNum) : Vector :=
  ⟨u.x.div n, u.y.div n, u.z.div n⟩

/-- The `Vector.prototype.dot` product, with the source's left-to-right
association `x*x + y*y + z*z`. -/
noncomputable def dot (u v : Vector) : JSNum :=
  ((u.x.mul v.x).add (u.y.mul v.y)).add (u.z.mul v.z)

/-- The `Vector.prototype.cross` product. -/
noncomputable def cross (u v : Vector) : Vector :=
  ⟨(u.y.mul v.z).sub (u.z.mul v.y),
   (u.z.mul v.x).sub (u.x.mul v.z),
   (u.x.mul v.y).sub (u.y.mul v.x)⟩

/-- The `Vector.prototype.length` method, `Math.sqrt(this.dot(this))`. -/
noncomputable def length (u : Vector) : JSNum := (u.dot u).sqrt

/-- The `Vector.prototype.unit` method, `this.divide(this.length())`. -/
noncomputable def unit (u : Vector) : Vector := u.divS u.length

/-- The static `Vector.min(a, b)` (component-wise `Math.min`). -/
def minPair (u v : Vector) : Vector :=
  ⟨JSNum.jsMin u.x v.x, JSNum.jsMin u.y v.y, JSNum.jsMin u.z v.z⟩

/-- The static `Vector.max(a, b)` (component-wise `Math.max`). -/
def maxPair (u v : Vector) : Vector :=
  ⟨JSNum.jsMax u.x v.x, JSNum.jsMax u.y v.y, JSNum.jsMax u.z v.z⟩

/-- The reducing `Vector.prototype.max` method,
`Math.max(Math.max(this.x, this.y), this.z)`. -/
def maxComp (u : Vector) : JSNum := JSNum.jsMax (JSNum.jsMax u.x u.y) u.z

/-- The reducing `Vector.prototype.min` method. -/
def minComp (u : Vector) : JSNum := JSNum.jsMin (JSNum.jsMin u.x u.y) u.z

/-- All three components are finite numbers. -/
def IsFinite (u : Vector) : Prop := u.x.IsFinite ∧ u.y.IsFinite ∧ u.z.IsFinite

end Vector

/-- The hit-test result record of `raytracer.js`: `t`, and the optional `hit`
point and surface `normal` (`undefined` when constructed without arguments,
modelled as `none`). -/
structure HitTest where
  t : JSNum
  hit : Option Vector
  normal : Option Vector

namespace HitTest

/-- The result of `new HitTest()` with no arguments:
`this.t = Number.MAX_VALUE`, `hit` and `normal` undefined. -/
noncomputable def init : HitTest := ⟨.fin JSNum.maxValue, none, none⟩

/-- The `HitTest.prototype.mergeWith(other)` method: when
`other.t > 0 && other.t < this.t`, copy `other`'s `t`, `hit` and `normal`
into `this` (modelled as returning the updated record). -/
noncomputable def mergeWith (this other : HitTest) : HitTest :=
  if JSNum.Lt (.fin 0) other.t ∧ JSNum.Lt other.t this.t then
    { t := other.t, hit := other.hit, normal := other.normal }
  else this

end HitTest

namespace Raytracer

/-- The `epsilon` constant of `Raytracer.hitTestBox` (`1.0e-6`). -/
noncomputable def epsilon : JSNum := .fin (1 / 1000000)

/-- The hit-point-versus-bounds sign of one component of a box face normal:
the JS expression `(h > hi) - (h < lo)` with booleans coerced to `0`/`1`. -/
noncomputable def faceSign (h lo hi : JSNum) : JSNum :=
  .fin ((if JSNum.Lt hi h then (1 : ℝ) else 0) - (if JSNum.Lt h lo then 1 else 0))

/-- The component-wise slab entry times `tMin = (min - origin) / ray` of
`Raytracer.hitTestBox`. -/
noncomputable def boxTMin (origin ray mn : Vector) : Vector :=
  (mn.subtract origin).divV ray

/-- The component-wise slab exit times `tMax = (max - origin) / ray`. -/
noncomputable def boxTMax (origin ray mx : Vector) : Vector :=
  (mx.subtract origin).divV ray

/-- The slab entry time `tNear = max(min(tMin, tMax))` of
`Raytracer.hitTestBox`. -/
noncomputable def boxTNear (origin ray mn mx : Vector) : JSNum :=
  ((boxTMin origin ray mn).minPair (boxTMax origin ray mx)).maxComp

/-- The slab exit time `tFar = min(max(tMin, tMax))` of
`Raytracer.hitTestBox`. -/
noncomputable def boxTFar (origin ray mn mx : Vector) : JSNum :=
  ((boxTMin origin ray mn).maxPair (boxTMax origin ray mx)).minComp

/-- The `Raytracer.hitTestBox(origin, ray, min, max)` slab intersection test
(returning `none` for the JS `null`). -/
noncomputable def hitTestBox (origin ray mn mx : Vector) : Option HitTest :=
  let tNear := boxTNear origin ray mn mx
  let tFar := boxTFar origin ray mn mx
  if JSNum.Lt (.fin 0) tNear ∧ JSNum.Lt tNear tFar then
    let hit := origin.add (ray.smul tNear)
    let min' := mn.addS epsilon
    let max' := mx.subS epsilon
    some ⟨tNear, some hit,
      some ⟨faceSign hit.x min'.x max'.x,
            faceSign hit.y min'.y max'.y,
            faceSign hit.z min'.z max'.z⟩⟩
  else none

/-- The discriminant `b*b - 4*a*c` of the ray-sphere quadratic of
`Raytracer.hitTestSphere`. -/
noncomputable def sphereDisc (origin ray center : Vector) (radius : JSNum) : JSNum :=
  let offset := origin.subtract center
  let a := ray.dot ray
  let b := (JSNum.fin 2).mul (ray.dot offset)
  let c := (offset.dot offset).sub (radius.mul radius)
  (b.mul b).sub ((JSNum.fin 4).mul (a.mul c))

/-- The near root `(-b - sqrt(disc)) / (2a)` reported by
`Raytracer.hitTestSphere`. -/
noncomputable def sphereNearT (origin ray center : Vector) (radius : JSNum) : JSNum :=
  let offset := origin.subtract center
  let a := ray.dot ray
  let b := (JSNum.fin 2).mul (ray.dot offset)
  (b.neg.sub (sphereDisc origin ray center radius).sqrt).div ((JSNum.fin 2).mul a)

/-- The `Raytracer.hitTestSphere(origin, ray, center, radius)` test. -/
noncomputable def hitTestSphere (origin ray center : Vector) (radius : JSNum) :
    Option HitTest :=
  if JSNum.Lt (.fin 0) (sphereDisc origin ray center radius) then
    let t := sphereNearT origin ray center radius
    let hit := origin.add (ray.smul t)
    some ⟨t, some hit, some ((hit.subtract center).divS radius)⟩
  else none

/-- The plane-intersection parameter
`t = normal.dot(a - origin) / normal.dot(ray)` of
`Raytracer.hitTestTriangle`, with `normal = unit((b-a) cross (c-a))`. -/
noncomputable def triT (origin ray a b c : Vector) : JSNum :=
  let normal := ((b.subtract a).cross (c.subtract a)).unit
  (normal.dot (a.subtract origin)).div (normal.dot ray)

/-- The `Raytracer.hitTestTriangle(origin, ray, a, b, c)` test with the
six-dot-product barycentric containment check. -/
noncomputable def hitTestTriangle (origin ray a b c : Vector) : Option HitTest :=
  let ab := b.subtract a
  let ac := c.subtract a
  let normal := (ab.cross ac).unit
  let t := triT origin ray a b c
  if JSNum.Lt (.fin 0) t then
    let hit := origin.add (ray.smul t)
    let toHit := hit.subtract a
    let dot00 := ac.dot ac
    let dot01 := ac.dot ab
    let dot02 := ac.dot toHit
    let dot11 := ab.dot ab
    let dot12 := ab.dot toHit
    let divide := (dot00.mul dot11).sub (dot01.mul dot01)
    let u := ((dot11.mul dot02).sub (dot01.mul dot12)).div divide
    let v := ((dot00.mul dot12).sub (dot01.mul dot02)).div divide
    if JSNum.Le (.fin 0) u ∧ JSNum.Le (.fin 0) v ∧ JSNum.Le (u.add v) (.fin 1) then
      some ⟨t, some hit, some normal⟩
    else none
  else none

end Raytracer

variable {K : Type*} [Field K] [DecidableEq K]

/-- The 4x4 row-major matrix of `matrix.js`, over an arbitrary field of
scalars (exact-arithmetic idealisation of JS numbers).  Field `mI` is the
source's `this.m[I]`. -/
structure Matrix (K : Type*) where
  m0 : K
  m1 : K
  m2 : K
  m3 : K
  m4 : K
  m5 : K
  m6 : K
  m7 : K
  m8 : K
  m9 : K
  m10 : K
  m11 : K
  m12 : K
  m13 : K
  m14 : K
  m15 : K
deriving DecidableEq

namespace Matrix

/-- The result of `new Matrix()` with no arguments: the identity matrix. -/
def identity : Matrix K :=
  ⟨1, 0, 0, 0,
   0, 1, 0, 0,
   0, 0, 1, 0,
   0, 0, 0, 1⟩

/-- The matrix `inv` built inside `Matrix.prototype.inverse` before the
division: the 16 explicit 3x3-cofactor sums of the Mesa
`__gluInvertMatrixd()` implementation (the adjugate of `A`). -/
def adjugate (A : Matrix K) : Matrix K :=
  ⟨A.m5*A.m10*A.m15 - A.m5*A.m14*A.m11 - A.m6*A.m9*A.m15 + A.m6*A.m13*A.m11 + A.m7*A.m9*A.m14 - A.m7*A.m13*A.m10,
   -A.m1*A.m10*A.m15 + A.m1*A.m14*A.m11 + A.m2*A.m9*A.m15 - A.m2*A.m13*A.m11 - A.m3*A.m9*A.m14 + A.m3*A.m13*A.m10,
   A.m1*A.m6*A.m15 - A.m1*A.m14*A.m7 - A.m2*A.m5*A.m15 + A.m2*A.m13*A.m7 + A.m3*A.m5*A.m14 - A.m3*A.m13*A.m6,
   -A.m1*A.m6*A.m11 + A.m1*A.m10*A.m7 + A.m2*A.m5*A.m11 - A.m2*A.m9*A.m7 - A.m3*A.m5*A.m10 + A.m3*A.m9*A.m6,
   -A.m4*A.m10*A.m15 + A.m4*A.m14*A.m11 + A.m6*A.m8*A.m15 - A.m6*A.m12*A.m11 - A.m7*A.m8*A.m14 + A.m7*A.m12*A.m10,
   A.m0*A.m10*A.m15 - A.m0*A.m14*A.m11 - A.m2*A.m8*A.m15 + A.m2*A.m12*A.m11 + A.m3*A.m8*A.m14 - A.m3*A.m12*A.m10,
   -A.m0*A.m6*A.m15 + A.m0*A.m14*A.m7 + A.m2*A.m4*A.m15 - A.m2*A.m12*A.m7 - A.m3*A.m4*A.m14 + A.m3*A.m12*A.m6,
   A.m0*A.m6*A.m11 - A.m0*A.m10*A.m7 - A.m2*A.m4*A.m11 + A.m2*A.m8*A.m7 + A.m3*A.m4*A.m10 - A.m3*A.m8*A.m6,
   A.m4*A.m9*A.m15 - A.m4*A.m13*A.m11 - A.m5*A.m8*A.m15 + A.m5*A.m12*A.m11 + A.m7*A.m8*A.m13 - A.m7*A.m12*A.m9,
   -A.m0*A.m9*A.m15 + A.m0*A.m13*A.m11 + A.m1*A.m8*A.m15 - A.m1*A.m12*A.m11 - A.m3*A.m8*A.m13 + A.m3*A.m12*A.m9,
   A.m0*A.m5*A.m15 - A.m0*A.m13*A.m7 - A.m1*A.m4*A.m15 + A.m1*A.m12*A.m7 + A.m3*A.m4*A.m13 - A.m3*A.m12*A.m5,
   -A.m0*A.m5*A.m11 + A.m0*A.m9*A.m7 + A.m1*A.m4*A.m11 - A.m1*A.m8*A.m7 - A.m3*A.m4*A.m9 + A.m3*A.m8*A.m5,
   -A.m4*A.m9*A.m14 + A.m4*A.m13*A.m10 + A.m5*A.m8*A.m14 - A.m5*A.m12*A.m10 - A.m6*A.m8*A.m13 + A.m6*A.m12*A.m9,
   A.m0*A.m9*A.m14 - A.m0*A.m13*A.m10 - A.m1*A.m8*A.m14 + A.m1*A.m12*A.m10 + A.m2*A.m8*A.m13 - A.m2*A.m12*A.m9,
   -A.m0*A.m5*A.m14 + A.m0*A.m13*A.m6 + A.m1*A.m4*A.m14 - A.m1*A.m12*A.m6 - A.m2*A.m4*A.m13 + A.m2*A.m12*A.m5,
   A.m0*A.m5*A.m10 - A.m0*A.m9*A.m6 - A.m1*A.m4*A.m10 + A.m1*A.m8*A.m6 + A.m2*A.m4*A.m9 - A.m2*A.m8*A.m5⟩

/-- The determinant as computed by `Matrix.prototype.inverse`:
`m[0]*inv.m[0] + m[1]*inv.m[4] + m[2]*inv.m[8] + m[3]*inv.m[12]`, the dot of
row 0 of the matrix with column 0 of the adjugate. -/
def det (A : Matrix K) : K :=
  A.m0 * A.adjugate.m0 + A.m1 * A.adjugate.m4 + A.m2 * A.adjugate.m8 +
    A.m3 * A.adjugate.m12

/-- Division of every entry by a scalar: the in-place loop
`for (i = 0; i < 16; i++) inv.m[i] /= det`. -/
def entrywiseDiv (A : Matrix K) (d : K) : Matrix K :=
  ⟨A.m0 / d, A.m1 / d, A.m2 / d, A.m3 / d,
   A.m4 / d, A.m5 / d, A.m6 / d, A.m7 / d,
   A.m8 / d, A.m9 / d, A.m10 / d, A.m11 / d,
   A.m12 / d, A.m13 / d, A.m14 / d, A.m15 / d⟩

/-- The `Matrix.prototype.inverse` method: build the adjugate, compute the
determinant from it, return `new Matrix()` (the identity) when the
determinant is `0`, otherwise divide all 16 adjugate entries by the
determinant. -/
def inverse (A : Matrix K) : Matrix K :=
  if A.det = 0 then identity else A.adjugate.entrywiseDiv A.det

/-- The `Matrix.prototype.multiply` method (row-major `this * matrix`). -/
def multiply (A B : Matrix K) : Matrix K :=
  ⟨A.m0 * B.m0 + A.m1 * B.m4 + A.m2 * B.m8 + A.m3 * B.m12,
   A.m0 * B.m1 + A.m1 * B.m5 + A.m2 * B.m9 + A.m3 * B.m13,
   A.m0 * B.m2 + A.m1 * B.m6 + A.m2 * B.m10 + A.m3 * B.m14,
   A.m0 * B.m3 + A.m1 * B.m7 + A.m2 * B.m11 + A.m3 * B.m15,
   A.m4 * B.m0 + A.m5 * B.m4 + A.m6 * B.m8 + A.m7 * B.m12,
   A.m4 * B.m1 + A.m5 * B.m5 + A.m6 * B.m9 + A.m7 * B.m13,
   A.m4 * B.m2 + A.m5 * B.m6 + A.m6 * B.m10 + A.m7 * B.m14,
   A.m4 * B.m3 + A.m5 * B.m7 + A.m6 * B.m11 + A.m7 * B.m15,
   A.m8 * B.m0 + A.m9 * B.m4 + A.m10 * B.m8 + A.m11 * B.m12,
   A.m8 * B.m1 + A.m9 * B.m5 + A.m10 * B.m9 + A.m11 * B.m13,
   A.m8 * B.m2 + A.m9 * B.m6 + A.m10 * B.m10 + A.m11 * B.m14,
   A.m8 * B.m3 + A.m9 * B.m7 + A.m10 * B.m11 + A.m11 * B.m15,
   A.m12 * B.m0 + A.m13 * B.m4 + A.m14 * B.m8 + A.m15 * B.m12,
   A.m12 * B.m1 + A.m13 * B.m5 + A.m14 * B.m9 + A.m15 * B.m13,
   A.m12 * B.m2 + A.m13 * B.m6 + A.m14 * B.m10 + A.m15 * B.m14,
   A.m12 * B.m3 + A.m13 * B.m7 + A.m14 * B.m11 + A.m15 * B.m15⟩

/-- The static `Matrix.scale(x, y, z)` builder. -/
def scale (x y z : K) : Matrix K :=
  ⟨x, 0, 0, 0,
   0, y, 0, 0,
   0, 0, z, 0,
   0, 0, 0, 1⟩

/-- The static `Matrix.translate(x, y, z)` builder. -/
def translate (x y z : K) : Matrix K :=
  ⟨1, 0, 0, x,
   0, 1, 0, y,
   0, 0, 1, z,
   0, 0, 0, 1⟩

/-- The static `Matrix.frustum(l, r, b, t, n, f)` builder. -/
def frustum (l r b t n f : K) : Matrix K :=
  ⟨2*n/(r-l), 0, (r+l)/(r-l), 0,
   0, 2*n/(t-b), (t+b)/(t-b), 0,
   0, 0, -(f+n)/(f-n), -2*f*n/(f-n),
   0, 0, -1, 0⟩

/-- The static `Matrix.ortho(l, r, b, t, n, f)` builder. -/
def ortho (l r b t n f : K) : Matrix K :=
  ⟨2/(r-l), 0, 0, (r+l)/(r-l),
   0, 2/(t-b), 0, (t+b)/(t-b),
   0, 0, -2/(f-n), (f+n)/(f-n),
   0, 0, 0, 1⟩

/-- The static `Matrix.rotate(a, x, y, z)` builder (degrees, axis-angle);
the JS truthiness guard `a && (x || y || z)` falls back to the identity. -/
noncomputable def rotate (a x y z : ℝ) : Matrix ℝ :=
  if a ≠ 0 ∧ (x ≠ 0 ∨ y ≠ 0 ∨ z ≠ 0) then
    let d := Real.sqrt (x*x + y*y + z*z)
    let a' := a * Real.pi / 180
    let x' := x / d
    let y' := y / d
    let z' := z / d
    let c := Real.cos a'
    let s := Real.sin a'
    let t := 1 - c
    ⟨x'*x'*t+c, x'*y'*t-z'*s, x'*z'*t+y'*s, 0,
     y'*x'*t+z'*s, y'*y'*t+c, y'*z'*t-x'*s, 0,
     z'*x'*t-y'*s, z'*y'*t+x'*s, z'*z'*t+c, 0,
     0, 0, 0, 1⟩
  else identity

/-- The static `Matrix.perspective(fov, aspect, near, far)` builder:
`y = tan(fov * pi / 360) * near`, `x = y * aspect`, then `frustum`. -/
noncomputable def perspective (fov aspect near far : ℝ) : Matrix ℝ :=
  let y := Real.tan (fov * Real.pi / 360) * near
  let x := y * aspect
  frustum (-x) x (-y) y near far

end Matrix

/-- The matrix mode selector of `gl.matrixMode` (`gl.MODELVIEW` or
`gl.PROJECTION`). -/
inductive MatrixMode : Type where
  | modelview : MatrixMode
  | projection : MatrixMode

/-- The transform-stack state installed on the WebGL context by `main.js`:
the two named matrices, their save stacks (list head is the JS array's top,
i.e. its last element), and the active-mode selector set by
`gl.matrixMode`. -/
structure GLState (K : Type*) where
  modelviewMatrix : Matrix K
  projectionMatrix : Matrix K
  modelviewStack : List (Matrix K)
  projectionStack : List (Matrix K)
  mode : MatrixMode

namespace GLState

/-- The active register `gl[matrix]` selected by the current mode. -/
def active (s : GLState K) : Matrix K :=
  match s.mode with
  | .modelview => s.modelviewMatrix
  | .projection => s.projectionMatrix

/-- The save stack paired with the active register. -/
def activeStack (s : GLState K) : List (Matrix K) :=
  match s.mode with
  | .modelview => s.modelviewStack
  | .projection => s.projectionStack

/-- Overwrite the active register (`gl[matrix].m = ...`). -/
def setActive (s : GLState K) (M : Matrix K) : GLState K :=
  match s.mode with
  | .modelview => { s with modelviewMatrix := M }
  | .projection => { s with projectionMatrix := M }

end GLState

/-- The `gl.loadIdentity()` operation: `gl[matrix].m = new Matrix().m`. -/
def loadIdentity (s : GLState K) : GLState K := s.setActive Matrix.identity

/-- The `gl.loadMatrix(m)` operation: `gl[matrix].m = m.m.slice()` (a copy
of the 16 entries, which is plain value assignment here). -/
def loadMatrix (m : Matrix K) (s : GLState K) : GLState K := s.setActive m

/-- The `gl.multMatrix(m)` operation:
`gl[matrix].m = gl[matrix].multiply(m).m`. -/
def multMatrix (m : Matrix K) (s : GLState K) : GLState K :=
  s.setActive (s.active.multiply m)

/-- The `gl.pushMatrix()` operation: `stack.push(gl[matrix].m.slice())`, a
deep copy of the active register's 16 entries pushed on the active stack. -/
def pushMatrix (s : GLState K) : GLState K :=
  match s.mode with
  | .modelview => { s with modelviewStack := s.active :: s.modelviewStack }
  | .projection => { s with projectionStack := s.active :: s.projectionStack }

/-- The `gl.popMatrix()` operation: `gl[matrix].m = stack.pop()`.  Popping an
empty stack (which in JS would store `undefined` into the register and is
never done by well-nested client code) is modelled as a no-op. -/
def popMatrix (s : GLState K) : GLState K :=
  match s.mode with
  | .modelview =>
      match s.modelviewStack with
      | [] => s
      | top :: rest => { s with modelviewMatrix := top, modelviewStack := rest }
  | .projection =>
      match s.projectionStack with
      | [] => s
      | top :: rest => { s with projectionMatrix := top, projectionStack := rest }

/-- The `gl.translate(x, y, z)` convenience call. -/
def glTranslate (x y z : K) (s : GLState K) : GLState K :=
  multMatrix (Matrix.translate x y z) s

/-- The `gl.scale(x, y, z)` convenience call. -/
def glScale (x y z : K) (s : GLState K) : GLState K :=
  multMatrix (Matrix.scale x y z) s

/-- The `gl.ortho(l, r, b, t, n, f)` convenience call. -/
def glOrtho (l r b t n f : K) (s : GLState K) : GLState K :=
  multMatrix (Matrix.ortho l r b t n f) s

/-- The `gl.frustum(l, r, b, t, n, f)` convenience call. -/
def glFrustum (l r b t n f : K) (s : GLState K) : GLState K :=
  multMatrix (Matrix.frustum l r b t n f) s

/-- The `gl.rotate(a, x, y, z)` convenience call. -/
noncomputable def glRotate (a x y z : ℝ) (s : GLState ℝ) : GLState ℝ :=
  multMatrix (Matrix.rotate a x y z) s

/-- The `gl.perspective(fov, aspect, near, far)` convenience call. -/
noncomputable def glPerspective (fov aspect near far : ℝ) (s : GLState ℝ) :
    GLState ℝ :=
  multMatrix (Matrix.perspective fov aspect near far) s

/-- One operation on the active register between a push and its matching pop:
`gl.loadIdentity()`, `gl.loadMatrix(m)` or `gl.multMatrix(m)`. -/
inductive MOp (K : Type*) where
  | loadIdentity : MOp K
  | loadMatrix : Matrix K → MOp K
  | multMatrix : Matrix K → MOp K

/-- Interpretation of a single register operation. -/
def applyOp (op : MOp K) (s : GLState K) : GLState K :=
  match op with
  | .loadIdentity => loadIdentity s
  | .loadMatrix m => loadMatrix m s
  | .multMatrix m => multMatrix m s

/-- Interpretation of a sequence of register operations, first op first. -/
def applyOps (ops : List (MOp K)) (s : GLState K) : GLState K :=
  match ops with
  | [] => s
  | op :: rest => applyOps rest (applyOp op s)


set_option maxHeartbeats 1600000 in
/-- C5: for every matrix with nonzero determinant, the cofactor-based inverse
is a true right inverse: `M.multiply(M.inverse())` is exactly the identity
matrix under exact arithmetic. -/
theorem Matrix.multiply_inverse_identity (A : Matrix K) (h : A.det ≠ 0) :
    A.multiply A.inverse = Matrix.identity := by
  rw [Matrix.inverse, if_neg h]
  simp only [Matrix.multiply, Matrix.entrywiseDiv, Matrix.identity,
    Matrix.mk.injEq]
  refine ⟨?_, ?_, ?_, ?_, ?_, ?_, ?_, ?_, ?_, ?_, ?_, ?_, ?_, ?_, ?_, ?_⟩ <;>
  · simp only [← mul_div_assoc, div_add_div_same]
    rw [div_eq_iff h]
    simp only [Matrix.det, Matrix.adjugate]
    ring

theorem Matrix.multiply_inverse_identity_witness :
    (Matrix.translate (1 : ℚ) 2 3).det ≠ 0 ∧
    (Matrix.translate (1 : ℚ) 2 3).multiply (Matrix.translate (1 : ℚ) 2 3).inverse
      = Matrix.identity :=
  ⟨by norm_num [Matrix.det, Matrix.adjugate, Matrix.translate],
   Matrix.multiply_inverse_identity _
     (by norm_num [Matrix.det, Matrix.adjugate, Matrix.translate])⟩

end LightGL

namespace LightGL

set_option linter.unusedSectionVars false

variable {K : Type*} [Field K] [DecidableEq K]

lemma GLState.active_setActive (s : GLState K) (M : Matrix K) :
    (s.setActive M).active = M := by
  rcases s with ⟨mv, pj, ms, ps, mode⟩
  cases mode <;> rfl

lemma applyOp_preserves (op : MOp K) (s : GLState K) :
    (applyOp op s).modelviewStack = s.modelviewStack ∧
    (applyOp op s).projectionStack = s.projectionStack ∧
    (applyOp op s).mode = s.mode := by
  rcases s with ⟨mv, pj, ms, ps, mode⟩
  cases op <;> cases mode <;>
    simp [applyOp, loadIdentity, loadMatrix, multMatrix, GLState.setActive]

lemma applyOps_preserves (ops : List (MOp K)) (s : GLState K) :
    (applyOps ops s).modelviewStack = s.modelviewStack ∧
    (applyOps ops s).projectionStack = s.projectionStack ∧
    (applyOps ops s).mode = s.mode := by
  induction ops generalizing s with
  | nil => exact ⟨rfl, rfl, rfl⟩
  | cons op rest ih =>
      obtain ⟨h1, h2, h3⟩ := applyOp_preserves op s
      obtain ⟨g1, g2, g3⟩ := ih (applyOp op s)
      exact ⟨g1.trans h1, g2.trans h2, g3.trans h3⟩

lemma applyOps_shape (ops : List (MOp K)) (s : GLState K) :
    ∃ mv pj, applyOps ops s
      = ⟨mv, pj, s.modelviewStack, s.projectionStack, s.mode⟩ := by
  obtain ⟨h1, h2, h3⟩ := applyOps_preserves ops s
  refine ⟨(applyOps ops s).modelviewMatrix, (applyOps ops s).projectionMatrix, ?_⟩
  rcases happ : applyOps ops s with ⟨a, b, c, d, e⟩
  rw [happ] at h1 h2 h3
  simp_all

/-- C9: `gl.pushMatrix` saves a by-value snapshot of the active register and
`gl.popMatrix` restores it: after any sequence of
`loadIdentity`/`loadMatrix`/`multMatrix` operations between a push and its
matching pop, the pop restores the active register to its value at the push,
and no such operation alters the saved snapshot (the saved stack still holds
exactly the pushed value on top). -/
theorem pushPop_spec (s : GLState K) (ops : List (MOp K)) :
    (popMatrix (applyOps ops (pushMatrix s))).active = s.active ∧
    (applyOps ops (pushMatrix s)).activeStack = s.active :: s.activeStack := by
  rcases s with ⟨mv, pj, ms, ps, mode⟩
  cases mode
  case modelview =>
    obtain ⟨mv', pj', hshape⟩ := applyOps_shape ops
      (pushMatrix ⟨mv, pj, ms, ps, .modelview⟩)
    rw [hshape]
    exact ⟨rfl, rfl⟩
  case projection =>
    obtain ⟨mv', pj', hshape⟩ := applyOps_shape ops
      (pushMatrix ⟨mv, pj, ms, ps, .projection⟩)
    rw [hshape]
    exact ⟨rfl, rfl⟩

/-- C4: `gl.multMatrix(m)` right-multiplies `m` onto the active register
(active becomes `active.multiply(m)`), and the convenience calls
`gl.translate`, `gl.scale`, `gl.rotate`, `gl.perspective`, `gl.ortho`,
`gl.frustum` are exactly `multMatrix` of the corresponding `Matrix`
builder. -/
theorem multMatrix_spec :
    (∀ (s : GLState ℝ) (m : Matrix ℝ),
        (multMatrix m s).active = s.active.multiply m) ∧
    (∀ (s : GLState ℝ) (x y z : ℝ),
        glTranslate x y z s = multMatrix (Matrix.translate x y z) s) ∧
    (∀ (s : GLState ℝ) (x y z : ℝ),
        glScale x y z s = multMatrix (Matrix.scale x y z) s) ∧
    (∀ (s : GLState ℝ) (a x y z : ℝ),
        glRotate a x y z s = multMatrix (Matrix.rotate a x y z) s) ∧
    (∀ (s : GLState ℝ) (fov aspect near far : ℝ),
        glPerspective fov aspect near far s
          = multMatrix (Matrix.perspective fov aspect near far) s) ∧
    (∀ (s : GLState ℝ) (l r b t n f : ℝ),
        glOrtho l r b t n f s = multMatrix (Matrix.ortho l r b t n f) s) ∧
    (∀ (s : GLState ℝ) (l r b t n f : ℝ),
        glFrustum l r b t n f s = multMatrix (Matrix.frustum l r b t n f) s) := by
  refine ⟨fun s m => ?_, fun _ _ _ _ => rfl, fun _ _ _ _ => rfl,
    fun _ _ _ _ _ => rfl, fun _ _ _ _ _ => rfl, fun _ _ _ _ _ _ _ => rfl,
    fun _ _ _ _ _ _ _ => rfl⟩
  exact GLState.active_setActive s (s.active.multiply m)

/-- C1: `Matrix.prototype.inverse` returns the identity matrix (signalling no
error) whenever the determinant computed as row 0 of `M` dotted with column 0
of the adjugate is exactly `0`, and otherwise returns the adjugate with all
16 entries divided by that determinant. -/
theorem Matrix.inverse_spec (A : Matrix K) :
    (A.det = 0 → A.inverse = Matrix.identity) ∧
    (A.det ≠ 0 → A.inverse = A.adjugate.entrywiseDiv A.det) := by
  constructor
  · intro h
    simp [Matrix.inverse, h]
  · intro h
    simp [Matrix.inverse, h]

theorem Matrix.inverse_spec_witness :
    (((⟨0, 0, 0, 0, 0, 0, 0, 0, 0, 0, 0, 0, 0, 0, 0, 0⟩ : Matrix ℚ).det = 0 ∧
      (⟨0, 0, 0, 0, 0, 0, 0, 0, 0, 0, 0, 0, 0, 0, 0, 0⟩ : Matrix ℚ).inverse
        = Matrix.identity) ∧
     ((Matrix.translate (1 : ℚ) 2 3).det ≠ 0 ∧
      (Matrix.translate (1 : ℚ) 2 3).inverse
        = (Matrix.translate (1 : ℚ) 2 3).adjugate.entrywiseDiv
            (Matrix.translate (1 : ℚ) 2 3).det)) :=
  ⟨⟨by norm_num [Matrix.det, Matrix.adjugate],
    (Matrix.inverse_spec _).1 (by norm_num [Matrix.det, Matrix.adjugate])⟩,
   ⟨by norm_num [Matrix.det, Matrix.adjugate, Matrix.translate],
    (Matrix.inverse_spec _).2
      (by norm_num [Matrix.det, Matrix.adjugate, Matrix.translate])⟩⟩

namespace JSNum

@[simp] lemma add_fin_fin (a b : ℝ) : (fin a).add (fin b) = fin (a + b) := rfl

@[simp] lemma neg_fin (a : ℝ) : (fin a).neg = fin (-a) := rfl

@[simp] lemma sub_fin_fin (a b : ℝ) : (fin a).sub (fin b) = fin (a - b) := by
  simp [sub, sub_eq_add_neg]

@[simp] lemma mul_fin_fin (a b : ℝ) : (fin a).mul (fin b) = fin (a * b) := rfl

lemma div_fin_fin {b : ℝ} (hb : b ≠ 0) (a : ℝ) :
    (fin a).div (fin b) = fin (a / b) := by
  simp [div, hb]

lemma div_fin_zero_pos {a : ℝ} (ha : 0 < a) : (fin a).div (fin 0) = posInf := by
  simp [div, ha, ha.ne']

lemma div_fin_zero_neg {a : ℝ} (ha : a < 0) : (fin a).div (fin 0) = negInf := by
  simp [div, ha.ne, not_lt.2 ha.le]

lemma div_fin_zero_zero : (fin 0).div (fin 0) = nan := by
  simp [div]

lemma sqrt_fin_nonneg {q : ℝ} (h : 0 ≤ q) :
    (fin q).sqrt = fin (Real.sqrt q) := by
  simp [sqrt, not_lt.2 h]

@[simp] lemma Lt_fin_fin {a b : ℝ} : Lt (fin a) (fin b) ↔ a < b := Iff.rfl

@[simp] lemma Le_fin_fin {a b : ℝ} : Le (fin a) (fin b) ↔ a ≤ b := Iff.rfl

@[simp] lemma jsMin_fin_fin (a b : ℝ) : jsMin (fin a) (fin b) = fin (min a b) := rfl

@[simp] lemma jsMax_fin_fin (a b : ℝ) : jsMax (fin a) (fin b) = fin (max a b) := rfl

lemma not_lt_of_le {a b : JSNum} (hab : Le a b) : ¬ Lt b a := by
  cases a <;> cases b <;> simp_all [Le, Lt, not_lt]

end JSNum

/-- C2 counterexample: the claim "a HitTest constructed with no arguments has
t equal to +infinity" is false on the code: `new HitTest()` sets
`this.t = Number.MAX_VALUE`, a finite value distinct from `+Infinity`. -/
theorem HitTest.init_t_ne_posInf : HitTest.init.t ≠ JSNum.posInf := by
  simp [HitTest.init]

/-- C2 (amended): a HitTest constructed with no arguments has `t` equal to
`Number.MAX_VALUE` (the largest finite double, `2^1024 - 2^971`), the sentinel
meaning no hit has been found yet. -/
theorem HitTest.init_t_eq_maxValue :
    HitTest.init.t = JSNum.fin JSNum.maxValue := rfl

/-- C3: `mergeWith` replaces `this`'s `t`, `hit` and `normal` with `other`'s
exactly when `other.t > 0 && other.t < this.t` (JS comparisons, false on
`NaN`); merging an `other` with `t >= this.t` (ties included) or with
`t <= 0` leaves `this` completely unchanged. -/
theorem HitTest.mergeWith_spec (h o : HitTest) :
    (JSNum.Lt (.fin 0) o.t ∧ JSNum.Lt o.t h.t →
      h.mergeWith o = ⟨o.t, o.hit, o.normal⟩) ∧
    (¬(JSNum.Lt (.fin 0) o.t ∧ JSNum.Lt o.t h.t) → h.mergeWith o = h) ∧
    (JSNum.Le h.t o.t → h.mergeWith o = h) ∧
    (JSNum.Le o.t (.fin 0) → h.mergeWith o = h) := by
  refine ⟨fun hc => ?_, fun hc => ?_, fun hc => ?_, fun hc => ?_⟩
  · rw [HitTest.mergeWith, if_pos hc]
  · rw [HitTest.mergeWith, if_neg hc]
  · rw [HitTest.mergeWith, if_neg fun hcc => JSNum.not_lt_of_le hc hcc.2]
  · rw [HitTest.mergeWith, if_neg fun hcc => JSNum.not_lt_of_le hc hcc.1]

theorem HitTest.mergeWith_spec_witness :
    ((JSNum.Lt (.fin 0) (JSNum.fin 1) ∧ JSNum.Lt (JSNum.fin 1) (JSNum.fin 5)) ∧
      HitTest.mergeWith ⟨JSNum.fin 5, none, none⟩
          ⟨JSNum.fin 1, some (Vector.finV 1 2 3), some (Vector.finV 0 0 1)⟩
        = ⟨JSNum.fin 1, some (Vector.finV 1 2 3), some (Vector.finV 0 0 1)⟩) ∧
    (JSNum.Le (JSNum.fin 5) (JSNum.fin 5) ∧
      HitTest.mergeWith ⟨JSNum.fin 5, none, none⟩
          ⟨JSNum.fin 5, some (Vector.finV 1 2 3), some (Vector.finV 0 0 1)⟩
        = ⟨JSNum.fin 5, none, none⟩) :=
  ⟨⟨⟨by simp, by simp⟩,
    (HitTest.mergeWith_spec _ _).1 ⟨by simp, by simp⟩⟩,
   ⟨by simp,
    (HitTest.mergeWith_spec _ _).2.2.1 (by simp)⟩⟩


lemma real_sqrt_four : Real.sqrt 4 = 2 := by
  rw [show (4 : ℝ) = 2 ^ 2 by norm_num]
  exact Real.sqrt_sq (by norm_num)

/-- C6: `Raytracer.hitTestSphere` returns a hit exactly when the discriminant
`b*b - 4*a*c` is strictly positive (miss and tangent cases return null), the
reported `t` is always the near root `(-b - sqrt(disc)) / (2a)`, and on
`origin = (0,0,-5)`, `ray = (0,0,1)`, `center = (0,0,0)`, `radius = 1` it
returns `t = 4`, `hit = (0,0,-1)`, `normal = (0,0,-1)`. -/
theorem Raytracer.hitTestSphere_spec :
    (∀ origin ray center radius,
      (Raytracer.hitTestSphere origin ray center radius).isSome
        ↔ JSNum.Lt (.fin 0) (Raytracer.sphereDisc origin ray center radius)) ∧
    (∀ origin ray center radius ht,
      Raytracer.hitTestSphere origin ray center radius = some ht →
        ht.t = Raytracer.sphereNearT origin ray center radius) ∧
    Raytracer.hitTestSphere (Vector.finV 0 0 (-5)) (Vector.finV 0 0 1)
        (Vector.finV 0 0 0) (JSNum.fin 1)
      = some ⟨JSNum.fin 4, some (Vector.finV 0 0 (-1)),
              some (Vector.finV 0 0 (-1))⟩ := by
  refine ⟨fun o r c rad => ?_, fun o r c rad ht heq => ?_, ?_⟩
  · rw [Raytracer.hitTestSphere]
    split_ifs with hc <;> simp [hc]
  · rw [Raytracer.hitTestSphere] at heq
    split_ifs at heq
    cases heq
    rfl
  · have hdisc : Raytracer.sphereDisc (Vector.finV 0 0 (-5)) (Vector.finV 0 0 1)
        (Vector.finV 0 0 0) (JSNum.fin 1) = JSNum.fin 4 := by
      norm_num [Raytracer.sphereDisc, Vector.finV, Vector.subtract, Vector.dot]
    have hT : Raytracer.sphereNearT (Vector.finV 0 0 (-5)) (Vector.finV 0 0 1)
        (Vector.finV 0 0 0) (JSNum.fin 1) = JSNum.fin 4 := by
      rw [Raytracer.sphereNearT, hdisc]
      rw [JSNum.sqrt_fin_nonneg (by norm_num : (0 : ℝ) ≤ 4), real_sqrt_four]
      norm_num [Vector.finV, Vector.subtract, Vector.dot]
      rw [JSNum.div_fin_fin (by norm_num : (2 : ℝ) ≠ 0)]
      norm_num
    rw [Raytracer.hitTestSphere, hdisc]
    rw [if_pos (show JSNum.Lt (.fin 0) (JSNum.fin 4) by norm_num)]
    rw [hT]
    norm_num [Vector.finV, Vector.add, Vector.smul, Vector.subtract, Vector.divS]
    simp only [JSNum.div_fin_fin (by norm_num : (1 : ℝ) ≠ 0)]
    norm_num

theorem Raytracer.hitTestSphere_spec_witness :
    Raytracer.hitTestSphere (Vector.finV 0 0 (-5)) (Vector.finV 0 0 1)
        (Vector.finV 0 0 0) (JSNum.fin 1)
      = some ⟨JSNum.fin 4, some (Vector.finV 0 0 (-1)),
              some (Vector.finV 0 0 (-1))⟩ ∧
    (⟨JSNum.fin 4, some (Vector.finV 0 0 (-1)),
      some (Vector.finV 0 0 (-1))⟩ : HitTest).t
      = Raytracer.sphereNearT (Vector.finV 0 0 (-5)) (Vector.finV 0 0 1)
          (Vector.finV 0 0 0) (JSNum.fin 1) :=
  ⟨Raytracer.hitTestSphere_spec.2.2,
   Raytracer.hitTestSphere_spec.2.1 _ _ _ _ _ Raytracer.hitTestSphere_spec.2.2⟩

namespace JSNum

@[simp] lemma jsMin_negInf_posInf : jsMin negInf posInf = negInf := rfl

@[simp] lemma jsMax_negInf_posInf : jsMax negInf posInf = posInf := rfl

@[simp] lemma jsMax_fin_negInf (a : ℝ) : jsMax (fin a) negInf = fin a := rfl

@[simp] lemma jsMin_fin_posInf (a : ℝ) : jsMin (fin a) posInf = fin a := rfl

end JSNum

/-- C7: `Raytracer.hitTestBox` computes the slab times
`tMin = (min - origin)/ray`, `tMax = (max - origin)/ray` component-wise,
`tNear` as the max of the component-wise min and `tFar` as the min of the
component-wise max, hits exactly when `tNear > 0 && tNear < tFar` with
`t = tNear`, and on `origin = (-5,0,0)`, `ray = (1,0,0)`,
`min = (-1,-1,-1)`, `max = (1,1,1)` returns `t = 4` with face normal
`(-1,0,0)` from the epsilon-adjusted bound comparison. -/
theorem Raytracer.hitTestBox_spec :
    (∀ origin ray mn mx,
      (Raytracer.hitTestBox origin ray mn mx).isSome
        ↔ JSNum.Lt (.fin 0) (Raytracer.boxTNear origin ray mn mx) ∧
          JSNum.Lt (Raytracer.boxTNear origin ray mn mx)
            (Raytracer.boxTFar origin ray mn mx)) ∧
    (∀ origin ray mn mx ht,
      Raytracer.hitTestBox origin ray mn mx = some ht →
        ht.t = Raytracer.boxTNear origin ray mn mx) ∧
    Raytracer.hitTestBox (Vector.finV (-5) 0 0) (Vector.finV 1 0 0)
        (Vector.finV (-1) (-1) (-1)) (Vector.finV 1 1 1)
      = some ⟨JSNum.fin 4, some (Vector.finV (-1) 0 0),
              some (Vector.finV (-1) 0 0)⟩ := by
  refine ⟨fun o r mn mx => ?_, fun o r mn mx ht heq => ?_, ?_⟩
  · rw [Raytracer.hitTestBox]
    split_ifs with hc <;> simp [hc]
  · rw [Raytracer.hitTestBox] at heq
    split_ifs at heq
    cases heq
    rfl
  · have hnear : Raytracer.boxTNear (Vector.finV (-5) 0 0) (Vector.finV 1 0 0)
        (Vector.finV (-1) (-1) (-1)) (Vector.finV 1 1 1) = JSNum.fin 4 := by
      rw [Raytracer.boxTNear, Raytracer.boxTMin, Raytracer.boxTMax]
      norm_num [Vector.finV, Vector.subtract, Vector.divV, Vector.minPair,
        Vector.maxComp, JSNum.div_fin_fin, JSNum.div_fin_zero_neg,
        JSNum.div_fin_zero_pos]
    have hfar : Raytracer.boxTFar (Vector.finV (-5) 0 0) (Vector.finV 1 0 0)
        (Vector.finV (-1) (-1) (-1)) (Vector.finV 1 1 1) = JSNum.fin 6 := by
      rw [Raytracer.boxTFar, Raytracer.boxTMin, Raytracer.boxTMax]
      norm_num [Vector.finV, Vector.subtract, Vector.divV, Vector.maxPair,
        Vector.minComp, JSNum.div_fin_fin, JSNum.div_fin_zero_neg,
        JSNum.div_fin_zero_pos]
    simp only [Raytracer.hitTestBox]
    rw [hnear, hfar]
    rw [if_pos (show JSNum.Lt (.fin 0) (JSNum.fin 4) ∧
          JSNum.Lt (JSNum.fin 4) (JSNum.fin 6) by constructor <;> norm_num)]
    norm_num [Vector.finV, Vector.add, Vector.smul, Vector.addS, Vector.subS,
      Raytracer.epsilon, Raytracer.faceSign]

theorem Raytracer.hitTestBox_spec_witness :
    Raytracer.hitTestBox (Vector.finV (-5) 0 0) (Vector.finV 1 0 0)
        (Vector.finV (-1) (-1) (-1)) (Vector.finV 1 1 1)
      = some ⟨JSNum.fin 4, some (Vector.finV (-1) 0 0),
              some (Vector.finV (-1) 0 0)⟩ ∧
    (⟨JSNum.fin 4, some (Vector.finV (-1) 0 0),
      some (Vector.finV (-1) 0 0)⟩ : HitTest).t
      = Raytracer.boxTNear (Vector.finV (-5) 0 0) (Vector.finV 1 0 0)
          (Vector.finV (-1) (-1) (-1)) (Vector.finV 1 1 1) :=
  ⟨Raytracer.hitTestBox_spec.2.2,
   Raytracer.hitTestBox_spec.2.1 _ _ _ _ _ Raytracer.hitTestBox_spec.2.2⟩

/-- C10: for a ray origin strictly inside the sphere and a nonzero ray
direction, the discriminant is strictly positive and `hitTestSphere` returns
a hit whose `t` (the near root) is strictly negative; merging that hit into
any `HitTest` leaves it unchanged, so the interior case is excluded only
downstream by `mergeWith`'s `other.t > 0` filter, never by `hitTestSphere`
returning null. -/
theorem Raytracer.hitTestSphere_inside_spec
    (o1 o2 o3 r1 r2 r3 c1 c2 c3 R : ℝ)
    (hin : (o1 - c1) ^ 2 + (o2 - c2) ^ 2 + (o3 - c3) ^ 2 < R ^ 2)
    (hray : r1 ≠ 0 ∨ r2 ≠ 0 ∨ r3 ≠ 0) :
    ∃ d tv : ℝ,
      Raytracer.sphereDisc (Vector.finV o1 o2 o3) (Vector.finV r1 r2 r3)
          (Vector.finV c1 c2 c3) (JSNum.fin R) = JSNum.fin d ∧ 0 < d ∧
      Raytracer.sphereNearT (Vector.finV o1 o2 o3) (Vector.finV r1 r2 r3)
          (Vector.finV c1 c2 c3) (JSNum.fin R) = JSNum.fin tv ∧ tv < 0 ∧
      ∃ ht, Raytracer.hitTestSphere (Vector.finV o1 o2 o3) (Vector.finV r1 r2 r3)
          (Vector.finV c1 c2 c3) (JSNum.fin R) = some ht ∧
        ht.t = JSNum.fin tv ∧
        ∀ h : HitTest, h.mergeWith ht = h := by
  have ha : 0 < r1 * r1 + r2 * r2 + r3 * r3 := by
    rcases hray with h | h | h <;>
      nlinarith [mul_self_nonneg r1, mul_self_nonneg r2, mul_self_nonneg r3,
        mul_self_pos.mpr h]
  have hc : (o1 - c1) * (o1 - c1) + (o2 - c2) * (o2 - c2) +
      (o3 - c3) * (o3 - c3) - R * R < 0 := by nlinarith
  set B : ℝ := 2 * (r1 * (o1 - c1) + r2 * (o2 - c2) + r3 * (o3 - c3)) with hB
  set d : ℝ := B ^ 2 - 4 * ((r1 * r1 + r2 * r2 + r3 * r3) *
      ((o1 - c1) * (o1 - c1) + (o2 - c2) * (o2 - c2) +
        (o3 - c3) * (o3 - c3) - R * R)) with hd
  have hd0 : 0 < d := by
    have : 0 < -4 * ((r1 * r1 + r2 * r2 + r3 * r3) *
        ((o1 - c1) * (o1 - c1) + (o2 - c2) * (o2 - c2) +
          (o3 - c3) * (o3 - c3) - R * R)) := by
      nlinarith [mul_pos ha (neg_pos.mpr hc)]
    nlinarith [sq_nonneg B]
  have hdisc : Raytracer.sphereDisc (Vector.finV o1 o2 o3) (Vector.finV r1 r2 r3)
      (Vector.finV c1 c2 c3) (JSNum.fin R) = JSNum.fin d := by
    simp only [Raytracer.sphereDisc, Vector.finV, Vector.subtract, Vector.dot,
      JSNum.sub_fin_fin, JSNum.mul_fin_fin, JSNum.add_fin_fin, JSNum.fin.injEq]
    rw [hd, hB]
    ring
  have hBsq : B ^ 2 < d := by
    have : 0 < -4 * ((r1 * r1 + r2 * r2 + r3 * r3) *
        ((o1 - c1) * (o1 - c1) + (o2 - c2) * (o2 - c2) +
          (o3 - c3) * (o3 - c3) - R * R)) := by
      nlinarith [mul_pos ha (neg_pos.mpr hc)]
    rw [hd]
    linarith
  have hsq : -B < Real.sqrt d := by
    rcases le_or_lt 0 B with hB0 | hB0
    · calc -B ≤ 0 := by linarith
        _ < Real.sqrt d := Real.sqrt_pos.mpr hd0
    · have h1 : (-B) ^ 2 < d := by
        rw [neg_pow]
        simp [hBsq]
      exact (Real.lt_sqrt (by linarith)).mpr h1
  set tv : ℝ := (-B - Real.sqrt d) / (2 * (r1 * r1 + r2 * r2 + r3 * r3))
    with htvdef
  have htv : tv < 0 := by
    apply div_neg_of_neg_of_pos
    · linarith
    · linarith
  have hT : Raytracer.sphereNearT (Vector.finV o1 o2 o3) (Vector.finV r1 r2 r3)
      (Vector.finV c1 c2 c3) (JSNum.fin R) = JSNum.fin tv := by
    simp only [Raytracer.sphereNearT, hdisc]
    rw [JSNum.sqrt_fin_nonneg hd0.le]
    simp only [Vector.finV, Vector.subtract, Vector.dot, JSNum.sub_fin_fin,
      JSNum.mul_fin_fin, JSNum.add_fin_fin, JSNum.neg_fin]
    rw [JSNum.div_fin_fin (by positivity)]
  refine ⟨d, tv, hdisc, hd0, hT, htv, ?_⟩
  rw [Raytracer.hitTestSphere, hdisc,
    if_pos (show JSNum.Lt (.fin 0) (JSNum.fin d) from JSNum.Lt_fin_fin.mpr hd0)]
  refine ⟨_, rfl, by rw [hT], fun h => ?_⟩
  rw [HitTest.mergeWith, if_neg]
  rintro ⟨hpos, -⟩
  rw [hT] at hpos
  exact absurd (JSNum.Lt_fin_fin.mp hpos) (not_lt.mpr htv.le)

theorem Raytracer.hitTestSphere_inside_spec_witness :
    ((0 - 0 : ℝ) ^ 2 + (0 - 0) ^ 2 + (0 - 0) ^ 2 < 1 ^ 2) ∧
    ((0 : ℝ) ≠ 0 ∨ (0 : ℝ) ≠ 0 ∨ (1 : ℝ) ≠ 0) ∧
    (∃ d tv : ℝ,
      Raytracer.sphereDisc (Vector.finV 0 0 0) (Vector.finV 0 0 1)
          (Vector.finV 0 0 0) (JSNum.fin 1) = JSNum.fin d ∧ 0 < d ∧
      Raytracer.sphereNearT (Vector.finV 0 0 0) (Vector.finV 0 0 1)
          (Vector.finV 0 0 0) (JSNum.fin 1) = JSNum.fin tv ∧ tv < 0 ∧
      ∃ ht, Raytracer.hitTestSphere (Vector.finV 0 0 0) (Vector.finV 0 0 1)
          (Vector.finV 0 0 0) (JSNum.fin 1) = some ht ∧
        ht.t = JSNum.fin tv ∧
        ∀ h : HitTest, h.mergeWith ht = h) :=
  ⟨by norm_num, by norm_num,
   Raytracer.hitTestSphere_inside_spec 0 0 0 0 0 1 0 0 0 1
     (by norm_num) (by norm_num)⟩

namespace JSNum

lemma isFinite_iff {x : JSNum} : x.IsFinite ↔ ∃ q : ℝ, x = fin q := by
  cases x <;> simp [IsFinite]

@[simp] lemma not_isFinite_nan : ¬ (nan : JSNum).IsFinite := by simp [IsFinite]

@[simp] lemma not_isFinite_posInf : ¬ (posInf : JSNum).IsFinite := by
  simp [IsFinite]

@[simp] lemma not_isFinite_negInf : ¬ (negInf : JSNum).IsFinite := by
  simp [IsFinite]

@[simp] lemma isFinite_fin (q : ℝ) : (fin q).IsFinite := by simp [IsFinite]

@[simp] lemma nan_add (x : JSNum) : nan.add x = nan := by cases x <;> rfl

@[simp] lemma add_nan (x : JSNum) : x.add nan = nan := by cases x <;> rfl

@[simp] lemma nan_mul (x : JSNum) : nan.mul x = nan := by cases x <;> rfl

@[simp] lemma mul_nan (x : JSNum) : x.mul nan = nan := by cases x <;> rfl

@[simp] lemma nan_div (x : JSNum) : nan.div x = nan := by cases x <;> rfl

@[simp] lemma div_nan (x : JSNum) : x.div nan = nan := by cases x <;> rfl

@[simp] lemma nan_sub (x : JSNum) : nan.sub x = nan := by
  cases x <;> simp [sub, neg]

@[simp] lemma sub_nan (x : JSNum) : x.sub nan = nan := by
  cases x <;> simp [sub, neg]

lemma neg_notFin {x : JSNum} (hx : ¬ x.IsFinite) : ¬ x.neg.IsFinite := by
  cases x <;> simp_all [neg, IsFinite]

lemma mul_fin_notFin (q : ℝ) {x : JSNum} (hx : ¬ x.IsFinite) :
    ¬ ((fin q).mul x).IsFinite := by
  cases x <;> simp_all [mul, IsFinite] <;> split_ifs <;> simp [IsFinite]

lemma add_notFin_notFin {x y : JSNum} (hx : ¬ x.IsFinite) (hy : ¬ y.IsFinite) :
    ¬ (x.add y).IsFinite := by
  cases x <;> cases y <;> simp_all [add, IsFinite]

lemma add_fin_notFin (q : ℝ) {y : JSNum} (hy : ¬ y.IsFinite) :
    ¬ ((fin q).add y).IsFinite := by
  cases y <;> simp_all [add, IsFinite]

lemma add_notFin_fin {x : JSNum} (hx : ¬ x.IsFinite) (q : ℝ) :
    ¬ (x.add (fin q)).IsFinite := by
  cases x <;> simp_all [add, IsFinite]

lemma sub_notFin_notFin {x y : JSNum} (hx : ¬ x.IsFinite) (hy : ¬ y.IsFinite) :
    ¬ (x.sub y).IsFinite :=
  add_notFin_notFin hx (neg_notFin hy)

lemma sub_notFin_fin {x : JSNum} (hx : ¬ x.IsFinite) (q : ℝ) :
    ¬ (x.sub (fin q)).IsFinite :=
  add_notFin_fin hx (-q)

lemma div_notFin_fin {x : JSNum} (hx : ¬ x.IsFinite) (y : JSNum)
    (hy : y.IsFinite) : ¬ (x.div y).IsFinite := by
  cases x <;> cases y <;> simp_all [div, IsFinite] <;> split_ifs <;>
    simp [IsFinite]

/-- The barycentric acceptance test `u >= 0 && v >= 0 && u + v <= 1` always
fails when `u` and `v` are both non-finite (`NaN` or an infinity). -/
lemma barycentric_guard_fails {u v : JSNum} (hu : ¬ u.IsFinite)
    (hv : ¬ v.IsFinite) :
    ¬ (Le (fin 0) u ∧ Le (fin 0) v ∧ Le (u.add v) (fin 1)) := by
  cases u <;> cases v <;> simp_all [IsFinite, Le, add]

end JSNum

namespace Vector

lemma dot_fin_notFin (v w : Vector) (hv : v.IsFinite)
    (h1 : ¬ w.x.IsFinite) (h2 : ¬ w.y.IsFinite) (h3 : ¬ w.z.IsFinite) :
    ¬ (v.dot w).IsFinite := by
  obtain ⟨q1, hq1⟩ := JSNum.isFinite_iff.mp hv.1
  obtain ⟨q2, hq2⟩ := JSNum.isFinite_iff.mp hv.2.1
  obtain ⟨q3, hq3⟩ := JSNum.isFinite_iff.mp hv.2.2
  rw [Vector.dot, hq1, hq2, hq3]
  exact JSNum.add_notFin_notFin
    (JSNum.add_notFin_notFin (JSNum.mul_fin_notFin q1 h1)
      (JSNum.mul_fin_notFin q2 h2))
    (JSNum.mul_fin_notFin q3 h3)

lemma dot_isFinite (v w : Vector) (hv : v.IsFinite) (hw : w.IsFinite) :
    (v.dot w).IsFinite := by
  obtain ⟨q1, hq1⟩ := JSNum.isFinite_iff.mp hv.1
  obtain ⟨q2, hq2⟩ := JSNum.isFinite_iff.mp hv.2.1
  obtain ⟨q3, hq3⟩ := JSNum.isFinite_iff.mp hv.2.2
  obtain ⟨w1, hw1⟩ := JSNum.isFinite_iff.mp hw.1
  obtain ⟨w2, hw2⟩ := JSNum.isFinite_iff.mp hw.2.1
  obtain ⟨w3, hw3⟩ := JSNum.isFinite_iff.mp hw.2.2
  rw [Vector.dot, hq1, hq2, hq3, hw1, hw2, hw3]
  simp

end Vector

namespace JSNum

lemma mul_isFinite {x y : JSNum} (hx : x.IsFinite) (hy : y.IsFinite) :
    (x.mul y).IsFinite := by
  obtain ⟨q, rfl⟩ := isFinite_iff.mp hx
  obtain ⟨w, rfl⟩ := isFinite_iff.mp hy
  simp

lemma add_isFinite {x y : JSNum} (hx : x.IsFinite) (hy : y.IsFinite) :
    (x.add y).IsFinite := by
  obtain ⟨q, rfl⟩ := isFinite_iff.mp hx
  obtain ⟨w, rfl⟩ := isFinite_iff.mp hy
  simp

lemma sub_isFinite {x y : JSNum} (hx : x.IsFinite) (hy : y.IsFinite) :
    (x.sub y).IsFinite := by
  obtain ⟨q, rfl⟩ := isFinite_iff.mp hx
  obtain ⟨w, rfl⟩ := isFinite_iff.mp hy
  simp

lemma mul_isFinite_notFin {x y : JSNum} (hx : x.IsFinite)
    (hy : ¬ y.IsFinite) : ¬ (x.mul y).IsFinite := by
  obtain ⟨q, rfl⟩ := isFinite_iff.mp hx
  exact mul_fin_notFin q hy

end JSNum

/-- C8 (amended): `hitTestTriangle` never raises an error and returns null
for every finite input whose ray is parallel to the triangle's plane
(`((b-a) cross (c-a)) . ray = 0`): the unguarded division produces `NaN`
(degenerate triangle or zero numerator), `-Infinity` (negative numerator,
rejected by `t > 0`), or `+Infinity` (positive numerator, which passes
`t > 0` but is then rejected by the barycentric tests on non-finite
`u`/`v`). -/
theorem Raytracer.hitTestTriangle_parallel_none
    (origin ray pa pb pc : Vector)
    (hfo : origin.IsFinite) (hfr : ray.IsFinite) (hfa : pa.IsFinite)
    (hfb : pb.IsFinite) (hfc : pc.IsFinite)
    (hpar : ((pb.subtract pa).cross (pc.subtract pa)).dot ray = JSNum.fin 0) :
    Raytracer.hitTestTriangle origin ray pa pb pc = none := by
  rcases origin with ⟨x1, x2, x3⟩
  obtain ⟨o1, rfl⟩ := JSNum.isFinite_iff.mp hfo.1
  obtain ⟨o2, rfl⟩ := JSNum.isFinite_iff.mp hfo.2.1
  obtain ⟨o3, rfl⟩ := JSNum.isFinite_iff.mp hfo.2.2
  rcases ray with ⟨y1, y2, y3⟩
  obtain ⟨r1, rfl⟩ := JSNum.isFinite_iff.mp hfr.1
  obtain ⟨r2, rfl⟩ := JSNum.isFinite_iff.mp hfr.2.1
  obtain ⟨r3, rfl⟩ := JSNum.isFinite_iff.mp hfr.2.2
  rcases pa with ⟨z1, z2, z3⟩
  obtain ⟨a1, rfl⟩ := JSNum.isFinite_iff.mp hfa.1
  obtain ⟨a2, rfl⟩ := JSNum.isFinite_iff.mp hfa.2.1
  obtain ⟨a3, rfl⟩ := JSNum.isFinite_iff.mp hfa.2.2
  rcases pb with ⟨w1, w2, w3⟩
  obtain ⟨b1, rfl⟩ := JSNum.isFinite_iff.mp hfb.1
  obtain ⟨b2, rfl⟩ := JSNum.isFinite_iff.mp hfb.2.1
  obtain ⟨b3, rfl⟩ := JSNum.isFinite_iff.mp hfb.2.2
  rcases pc with ⟨v1, v2, v3⟩
  obtain ⟨c1, rfl⟩ := JSNum.isFinite_iff.mp hfc.1
  obtain ⟨c2, rfl⟩ := JSNum.isFinite_iff.mp hfc.2.1
  obtain ⟨c3, rfl⟩ := JSNum.isFinite_iff.mp hfc.2.2
  have hcross : (Vector.subtract ⟨JSNum.fin b1, JSNum.fin b2, JSNum.fin b3⟩
        ⟨JSNum.fin a1, JSNum.fin a2, JSNum.fin a3⟩).cross
      (Vector.subtract ⟨JSNum.fin c1, JSNum.fin c2, JSNum.fin c3⟩
        ⟨JSNum.fin a1, JSNum.fin a2, JSNum.fin a3⟩)
      = Vector.finV ((b2 - a2) * (c3 - a3) - (b3 - a3) * (c2 - a2))
          ((b3 - a3) * (c1 - a1) - (b1 - a1) * (c3 - a3))
          ((b1 - a1) * (c2 - a2) - (b2 - a2) * (c1 - a1)) := by
    simp [Vector.subtract, Vector.cross, Vector.finV]
  set p1 : ℝ := (b2 - a2) * (c3 - a3) - (b3 - a3) * (c2 - a2) with hp1
  set p2 : ℝ := (b3 - a3) * (c1 - a1) - (b1 - a1) * (c3 - a3) with hp2
  set p3 : ℝ := (b1 - a1) * (c2 - a2) - (b2 - a2) * (c1 - a1) with hp3
  rw [hcross] at hpar
  simp only [Vector.dot, Vector.finV, JSNum.mul_fin_fin, JSNum.add_fin_fin,
    JSNum.fin.injEq] at hpar
  have hdotself : (Vector.finV p1 p2 p3).dot (Vector.finV p1 p2 p3)
      = JSNum.fin (p1 * p1 + p2 * p2 + p3 * p3) := by
    simp [Vector.dot, Vector.finV]
  set s : ℝ := p1 * p1 + p2 * p2 + p3 * p3 with hs
  have hs0 : 0 ≤ s := by
    rw [hs]
    nlinarith [mul_self_nonneg p1, mul_self_nonneg p2, mul_self_nonneg p3]
  have hlen : (Vector.finV p1 p2 p3).length = JSNum.fin (Real.sqrt s) := by
    rw [Vector.length, hdotself, JSNum.sqrt_fin_nonneg hs0]
  rcases eq_or_lt_of_le hs0 with hsz | hspos
  · -- degenerate triangle: zero cross product, normal is (NaN, NaN, NaN)
    have h1 : p1 = 0 := by
      have : p1 * p1 = 0 := by nlinarith [mul_self_nonneg p2, mul_self_nonneg p3]
      exact mul_self_eq_zero.mp this
    have h2 : p2 = 0 := by
      have : p2 * p2 = 0 := by nlinarith [mul_self_nonneg p1, mul_self_nonneg p3]
      exact mul_self_eq_zero.mp this
    have h3 : p3 = 0 := by
      have : p3 * p3 = 0 := by nlinarith [mul_self_nonneg p1, mul_self_nonneg p2]
      exact mul_self_eq_zero.mp this
    have hsz' : Real.sqrt s = 0 := by rw [← hsz, Real.sqrt_zero]
    have hnil : (Vector.finV p1 p2 p3).unit
        = ⟨JSNum.nan, JSNum.nan, JSNum.nan⟩ := by
      rw [Vector.unit, hlen, hsz']
      simp [Vector.divS, Vector.finV, h1, h2, h3, JSNum.div_fin_zero_zero]
    have htriT : Raytracer.triT ⟨JSNum.fin o1, JSNum.fin o2, JSNum.fin o3⟩
        ⟨JSNum.fin r1, JSNum.fin r2, JSNum.fin r3⟩
        ⟨JSNum.fin a1, JSNum.fin a2, JSNum.fin a3⟩
        ⟨JSNum.fin b1, JSNum.fin b2, JSNum.fin b3⟩
        ⟨JSNum.fin c1, JSNum.fin c2, JSNum.fin c3⟩ = JSNum.nan := by
      simp only [Raytracer.triT]
      rw [hcross, hnil]
      simp [Vector.dot]
    simp only [Raytracer.hitTestTriangle]
    rw [htriT, if_neg (fun h => h : ¬ JSNum.Lt (JSNum.fin 0) JSNum.nan)]
  · -- nonzero normal: denominator is exactly 0, split on the numerator sign
    have hw0 : Real.sqrt s ≠ 0 := (Real.sqrt_pos.mpr hspos).ne'
    have hunit : (Vector.finV p1 p2 p3).unit
        = Vector.finV (p1 / Real.sqrt s) (p2 / Real.sqrt s)
            (p3 / Real.sqrt s) := by
      rw [Vector.unit, hlen]
      simp [Vector.divS, Vector.finV, JSNum.div_fin_fin hw0]
    have hden : (Vector.finV (p1 / Real.sqrt s) (p2 / Real.sqrt s)
          (p3 / Real.sqrt s)).dot
        ⟨JSNum.fin r1, JSNum.fin r2, JSNum.fin r3⟩ = JSNum.fin 0 := by
      simp only [Vector.dot, Vector.finV, JSNum.mul_fin_fin, JSNum.add_fin_fin,
        JSNum.fin.injEq]
      field_simp
      linear_combination hpar
    set N : ℝ := p1 / Real.sqrt s * (a1 - o1) + p2 / Real.sqrt s * (a2 - o2) +
        p3 / Real.sqrt s * (a3 - o3) with hN
    have hnum : (Vector.finV (p1 / Real.sqrt s) (p2 / Real.sqrt s)
          (p3 / Real.sqrt s)).dot
        (Vector.subtract ⟨JSNum.fin a1, JSNum.fin a2, JSNum.fin a3⟩
          ⟨JSNum.fin o1, JSNum.fin o2, JSNum.fin o3⟩) = JSNum.fin N := by
      simp only [Vector.dot, Vector.finV, Vector.subtract, JSNum.sub_fin_fin,
        JSNum.mul_fin_fin, JSNum.add_fin_fin]
    have htriT0 : Raytracer.triT ⟨JSNum.fin o1, JSNum.fin o2, JSNum.fin o3⟩
        ⟨JSNum.fin r1, JSNum.fin r2, JSNum.fin r3⟩
        ⟨JSNum.fin a1, JSNum.fin a2, JSNum.fin a3⟩
        ⟨JSNum.fin b1, JSNum.fin b2, JSNum.fin b3⟩
        ⟨JSNum.fin c1, JSNum.fin c2, JSNum.fin c3⟩
        = (JSNum.fin N).div (JSNum.fin 0) := by
      simp only [Raytracer.triT]
      rw [hcross, hunit, hnum, hden]
    rcases lt_trichotomy N 0 with hneg | hzero | hpos
    · have htriT : Raytracer.triT ⟨JSNum.fin o1, JSNum.fin o2, JSNum.fin o3⟩
          ⟨JSNum.fin r1, JSNum.fin r2, JSNum.fin r3⟩
          ⟨JSNum.fin a1, JSNum.fin a2, JSNum.fin a3⟩
          ⟨JSNum.fin b1, JSNum.fin b2, JSNum.fin b3⟩
          ⟨JSNum.fin c1, JSNum.fin c2, JSNum.fin c3⟩ = JSNum.negInf := by
        rw [htriT0, JSNum.div_fin_zero_neg hneg]
      simp only [Raytracer.hitTestTriangle]
      rw [htriT, if_neg (fun h => h : ¬ JSNum.Lt (JSNum.fin 0) JSNum.negInf)]
    · have htriT : Raytracer.triT ⟨JSNum.fin o1, JSNum.fin o2, JSNum.fin o3⟩
          ⟨JSNum.fin r1, JSNum.fin r2, JSNum.fin r3⟩
          ⟨JSNum.fin a1, JSNum.fin a2, JSNum.fin a3⟩
          ⟨JSNum.fin b1, JSNum.fin b2, JSNum.fin b3⟩
          ⟨JSNum.fin c1, JSNum.fin c2, JSNum.fin c3⟩ = JSNum.nan := by
        rw [htriT0, hzero, JSNum.div_fin_zero_zero]
      simp only [Raytracer.hitTestTriangle]
      rw [htriT, if_neg (fun h => h : ¬ JSNum.Lt (JSNum.fin 0) JSNum.nan)]
    · -- t = +Infinity: passes t > 0 but the barycentric guard fails
      have htriT : Raytracer.triT ⟨JSNum.fin o1, JSNum.fin o2, JSNum.fin o3⟩
          ⟨JSNum.fin r1, JSNum.fin r2, JSNum.fin r3⟩
          ⟨JSNum.fin a1, JSNum.fin a2, JSNum.fin a3⟩
          ⟨JSNum.fin b1, JSNum.fin b2, JSNum.fin b3⟩
          ⟨JSNum.fin c1, JSNum.fin c2, JSNum.fin c3⟩ = JSNum.posInf := by
        rw [htriT0, JSNum.div_fin_zero_pos hpos]
      simp only [Raytracer.hitTestTriangle]
      rw [htriT,
        if_pos (show JSNum.Lt (JSNum.fin 0) JSNum.posInf from True.intro)]
      have hfinab : (Vector.subtract ⟨JSNum.fin b1, JSNum.fin b2, JSNum.fin b3⟩
          ⟨JSNum.fin a1, JSNum.fin a2, JSNum.fin a3⟩).IsFinite := by
        simp [Vector.subtract, Vector.IsFinite]
      have hfinac : (Vector.subtract ⟨JSNum.fin c1, JSNum.fin c2, JSNum.fin c3⟩
          ⟨JSNum.fin a1, JSNum.fin a2, JSNum.fin a3⟩).IsFinite := by
        simp [Vector.subtract, Vector.IsFinite]
      have htoHit : ∀ q r aq : ℝ,
          ¬ (((JSNum.fin q).add ((JSNum.fin r).mul JSNum.posInf)).sub
              (JSNum.fin aq)).IsFinite := fun q r aq =>
        JSNum.sub_notFin_fin
          (JSNum.add_fin_notFin q
            (JSNum.mul_fin_notFin r JSNum.not_isFinite_posInf)) aq
      split_ifs with hg
      · exact absurd hg (JSNum.barycentric_guard_fails
          (JSNum.div_notFin_fin
            (JSNum.sub_notFin_notFin
              (JSNum.mul_isFinite_notFin
                (Vector.dot_isFinite _ _ hfinab hfinab)
                (Vector.dot_fin_notFin _ _ hfinac
                  (by simp only [Vector.subtract, Vector.add, Vector.smul]
                      exact htoHit o1 r1 a1)
                  (by simp only [Vector.subtract, Vector.add, Vector.smul]
                      exact htoHit o2 r2 a2)
                  (by simp only [Vector.subtract, Vector.add, Vector.smul]
                      exact htoHit o3 r3 a3)))
              (JSNum.mul_isFinite_notFin
                (Vector.dot_isFinite _ _ hfinac hfinab)
                (Vector.dot_fin_notFin _ _ hfinab
                  (by simp only [Vector.subtract, Vector.add, Vector.smul]
                      exact htoHit o1 r1 a1)
                  (by simp only [Vector.subtract, Vector.add, Vector.smul]
                      exact htoHit o2 r2 a2)
                  (by simp only [Vector.subtract, Vector.add, Vector.smul]
                      exact htoHit o3 r3 a3))))
            _
            (JSNum.sub_isFinite
              (JSNum.mul_isFinite (Vector.dot_isFinite _ _ hfinac hfinac)
                (Vector.dot_isFinite _ _ hfinab hfinab))
              (JSNum.mul_isFinite (Vector.dot_isFinite _ _ hfinac hfinab)
                (Vector.dot_isFinite _ _ hfinac hfinab))))
          (JSNum.div_notFin_fin
            (JSNum.sub_notFin_notFin
              (JSNum.mul_isFinite_notFin
                (Vector.dot_isFinite _ _ hfinac hfinac)
                (Vector.dot_fin_notFin _ _ hfinab
                  (by simp only [Vector.subtract, Vector.add, Vector.smul]
                      exact htoHit o1 r1 a1)
                  (by simp only [Vector.subtract, Vector.add, Vector.smul]
                      exact htoHit o2 r2 a2)
                  (by simp only [Vector.subtract, Vector.add, Vector.smul]
                      exact htoHit o3 r3 a3)))
              (JSNum.mul_isFinite_notFin
                (Vector.dot_isFinite _ _ hfinac hfinab)
                (Vector.dot_fin_notFin _ _ hfinac
                  (by simp only [Vector.subtract, Vector.add, Vector.smul]
                      exact htoHit o1 r1 a1)
                  (by simp only [Vector.subtract, Vector.add, Vector.smul]
                      exact htoHit o2 r2 a2)
                  (by simp only [Vector.subtract, Vector.add, Vector.smul]
                      exact htoHit o3 r3 a3))))
            _
            (JSNum.sub_isFinite
              (JSNum.mul_isFinite (Vector.dot_isFinite _ _ hfinac hfinac)
                (Vector.dot_isFinite _ _ hfinab hfinab))
              (JSNum.mul_isFinite (Vector.dot_isFinite _ _ hfinac hfinab)
                (Vector.dot_isFinite _ _ hfinac hfinab)))))
      · rfl

/-- C8 counterexample: for `origin = (0,0,0)`, `ray = (1,0,0)` and the
triangle `a = (0,0,1)`, `b = (1,0,1)`, `c = (0,2,1)` the ray is parallel to
the triangle's plane (the plane normal dotted with the ray is exactly `0`),
yet the computed `t` is `+Infinity` and the `t > 0` comparison evaluates to
true — refuting the claim that degenerate rays are filtered by the `t > 0`
comparison alone. -/
theorem Raytracer.hitTestTriangle_parallel_t_pos :
    ((Vector.finV 1 0 1 |>.subtract (Vector.finV 0 0 1)).cross
        ((Vector.finV 0 2 1).subtract (Vector.finV 0 0 1))).dot
        (Vector.finV 1 0 0) = JSNum.fin 0 ∧
    Raytracer.triT (Vector.finV 0 0 0) (Vector.finV 1 0 0) (Vector.finV 0 0 1)
        (Vector.finV 1 0 1) (Vector.finV 0 2 1) = JSNum.posInf ∧
    JSNum.Lt (.fin 0)
      (Raytracer.triT (Vector.finV 0 0 0) (Vector.finV 1 0 0)
        (Vector.finV 0 0 1) (Vector.finV 1 0 1) (Vector.finV 0 2 1)) := by
  have hc : ((Vector.finV 1 0 1).subtract (Vector.finV 0 0 1)).cross
      ((Vector.finV 0 2 1).subtract (Vector.finV 0 0 1))
      = Vector.finV 0 0 2 := by
    norm_num [Vector.subtract, Vector.cross, Vector.finV]
  have hT : Raytracer.triT (Vector.finV 0 0 0) (Vector.finV 1 0 0)
      (Vector.finV 0 0 1) (Vector.finV 1 0 1) (Vector.finV 0 2 1)
      = JSNum.posInf := by
    have hds : (Vector.finV 0 0 2).dot (Vector.finV 0 0 2) = JSNum.fin 4 := by
      norm_num [Vector.dot, Vector.finV]
    have hu : (Vector.finV 0 0 2).unit = Vector.finV 0 0 1 := by
      rw [Vector.unit, Vector.length, hds,
        JSNum.sqrt_fin_nonneg (by norm_num : (0 : ℝ) ≤ 4), real_sqrt_four]
      simp only [Vector.divS, Vector.finV,
        JSNum.div_fin_fin (by norm_num : (2 : ℝ) ≠ 0)]
      norm_num
    simp only [Raytracer.triT, Vector.finV] at hc hu ⊢
    rw [hc, hu]
    have hnum : (Vector.mk (JSNum.fin 0) (JSNum.fin 0) (JSNum.fin 1)).dot
        (Vector.subtract ⟨JSNum.fin 0, JSNum.fin 0, JSNum.fin 1⟩
          ⟨JSNum.fin 0, JSNum.fin 0, JSNum.fin 0⟩) = JSNum.fin 1 := by
      norm_num [Vector.dot, Vector.subtract]
    have hden : (Vector.mk (JSNum.fin 0) (JSNum.fin 0) (JSNum.fin 1)).dot
        ⟨JSNum.fin 1, JSNum.fin 0, JSNum.fin 0⟩ = JSNum.fin 0 := by
      norm_num [Vector.dot]
    rw [hnum, hden, JSNum.div_fin_zero_pos one_pos]
  refine ⟨?_, hT, ?_⟩
  · norm_num [Vector.subtract, Vector.cross, Vector.dot, Vector.finV]
  · rw [hT]
    exact True.intro

theorem Raytracer.hitTestTriangle_parallel_none_witness :
    (Vector.finV 0 0 0).IsFinite ∧ (Vector.finV 1 0 0).IsFinite ∧
    (Vector.finV 0 0 1).IsFinite ∧ (Vector.finV 1 0 1).IsFinite ∧
    (Vector.finV 0 2 1).IsFinite ∧
    (((Vector.finV 1 0 1).subtract (Vector.finV 0 0 1)).cross
        ((Vector.finV 0 2 1).subtract (Vector.finV 0 0 1))).dot
        (Vector.finV 1 0 0) = JSNum.fin 0 ∧
    Raytracer.hitTestTriangle (Vector.finV 0 0 0) (Vector.finV 1 0 0)
        (Vector.finV 0 0 1) (Vector.finV 1 0 1) (Vector.finV 0 2 1) = none :=
  ⟨by simp [Vector.finV, Vector.IsFinite],
   by simp [Vector.finV, Vector.IsFinite],
   by simp [Vector.finV, Vector.IsFinite],
   by simp [Vector.finV, Vector.IsFinite],
   by simp [Vector.finV, Vector.IsFinite],
   by norm_num [Vector.subtract, Vector.cross, Vector.dot, Vector.finV],
   Raytracer.hitTestTriangle_parallel_none _ _ _ _ _
     (by simp [Vector.finV, Vector.IsFinite])
     (by simp [Vector.finV, Vector.IsFinite])
     (by simp [Vector.finV, Vector.IsFinite])
     (by simp [Vector.finV, Vector.IsFinite])
     (by simp [Vector.finV, Vector.IsFinite])
     (by norm_num [Vector.subtract, Vector.cross, Vector.dot, Vector.finV])⟩

end LightGL

